import Mathlib

/-!
Verification of the Wallet Activation & Referral Attribution Engine.

The definitions below are shallow embeddings of the repository's
JavaScript/TypeScript sources:

* `atob`, `parsePublicKey`, `utf8Encode` model the platform primitives used
  by the verifiers (base64 decode, Solana base58 public-key parsing, UTF-8
  message encoding).  Fallible operations return `Except`/`Option`; a JS
  exception corresponds to the error value.
* `verifySignature` embeds `server/signatureVerification.js` (verifySignature);
  the tweetnacl call `nacl.sign.detached.verify` is an external library and is
  passed in as the oracle `naclVerify`; `none` models the library throwing,
  which the source catches and turns into `false`.
* `validateNonceAndTimestamp`, `markNonceUsedList`, `verifyWalletActivation`
  embed the in-memory activation gate of `server/signatureVerification.js`.
* `verifyAndConsumeNonce`, `verifyWalletHandler` embed the Supabase-backed
  activation endpoint (verify-wallet serverless handler).
* `createRewardfulAffiliate`, `createAffiliateHandler` embed the Supabase
  create-affiliate endpoint.
* `handleReferralConverted` and its helpers embed the Supabase Rewardful
  webhook `api/webhooks/rewardful.js`.
* `referralProgressHandler` embeds the Supabase referral-progress endpoint.
* `attributeReferral` embeds `src/mockBackend.ts` (attribution ledger).
-/

namespace Referral

/-! ## Byte-level primitives -/

/-- The base64 alphabet used by `atob`. -/
def base64Alphabet : List Char :=
  "ABCDEFGHIJKLMNOPQRSTUVWXYZabcdefghijklmnopqrstuvwxyz0123456789+/".data

/-- Index of a character in the base64 alphabet, `none` for a non-alphabet
character. -/
def b64Index (c : Char) : Option Nat :=
  base64Alphabet.findIdx? (· = c)

/-- ASCII whitespace, which forgiving base64 decoding (JS `atob`) strips. -/
def isB64Whitespace (c : Char) : Bool :=
  c == ' ' || c == '\t' || c == '\n' || c == '\r' || c == '\x0c'

/-- Strip trailing `=` padding characters. -/
def stripBase64Padding (cs : List Char) : List Char :=
  ((cs.reverse).dropWhile (· = '=')).reverse

/-- Turn a list of 6-bit values into bytes, four values giving three bytes;
a trailing group of one value is invalid base64. -/
def b64Chunks : List Nat → Option (List Nat)
  | [] => some []
  | [_] => none
  | [a, b] => some [a * 4 + b / 16]
  | [a, b, c] => some [a * 4 + b / 16, b % 16 * 16 + c / 4]
  | a :: b :: c :: d :: rest =>
    match b64Chunks rest with
    | none => none
    | some tail => some ((a * 4 + b / 16) :: (b % 16 * 16 + c / 4) :: (c % 4 * 64 + d) :: tail)

/-- JS `atob`: forgiving base64 decode; an invalid character or group length
raises `InvalidCharacterError`, modelled as `.error`. -/
def atob (s : String) : Except String (List Nat) :=
  let cs := (s.data.filter (fun c => !(isB64Whitespace c)))
  let cs := stripBase64Padding cs
  match cs.mapM b64Index with
  | none => .error "InvalidCharacterError"
  | some idxs =>
    match b64Chunks idxs with
    | none => .error "InvalidCharacterError"
    | some bytes => .ok bytes

/-- The base58 alphabet used by Solana addresses. -/
def base58Alphabet : List Char :=
  "123456789ABCDEFGHJKLMNPQRSTUVWXYZabcdefghijkmnopqrstuvwxyz".data

/-- Index of a character in the base58 alphabet. -/
def b58Index (c : Char) : Option Nat :=
  base58Alphabet.findIdx? (· = c)

/-- Big-endian byte representation of a natural number, by fuel-bounded
division (the fuel `n` itself always suffices since `n < 256 ^ n`). -/
def natToBEBytesAux : Nat → Nat → List Nat → List Nat
  | 0, _, acc => acc
  | fuel + 1, n, acc => if n = 0 then acc else natToBEBytesAux fuel (n / 256) (n % 256 :: acc)

/-- Big-endian byte representation of a natural number (empty for zero). -/
def natToBEBytes (n : Nat) (acc : List Nat) : List Nat :=
  natToBEBytesAux n n acc

/-- Base58 decoding: every character must be in the alphabet; each leading
`1` contributes one leading zero byte. -/
def base58Decode (s : String) : Option (List Nat) :=
  match s.data.mapM b58Index with
  | none => none
  | some idxs =>
    let value := idxs.foldl (fun acc i => acc * 58 + i) 0
    let leadingZeros := (s.data.takeWhile (· = '1')).length
    some (List.replicate leadingZeros 0 ++ natToBEBytes value [])

/-- `new PublicKey(s)` of `@solana/web3.js`: base58-decode and require exactly
32 bytes; the constructor throwing is modelled as `.error`. -/
def parsePublicKey (s : String) : Except String (List Nat) :=
  match base58Decode s with
  | none => .error "Non-base58 character"
  | some bytes => if bytes.length = 32 then .ok bytes else .error "Invalid public key input"

/-- `new TextEncoder().encode(message)`. -/
def utf8Encode (s : String) : List Nat :=
  s.toUTF8.toList.map (fun b => b.toNat)

/-! ## Signature verifier (`server/signatureVerification.js`) -/

/-- `verifySignature(message, signature, publicKey)`: empty inputs fail the
basic validation; the signature is base64-decoded and the public key parsed,
each failure caught and returned as `false`; otherwise the tweetnacl verdict
is returned, with a library exception (`none`) caught by the outer handler
and turned into `false`. -/
def verifySignature (naclVerify : List Nat → List Nat → List Nat → Option Bool)
    (message signature publicKey : String) : Bool :=
  if message.isEmpty || signature.isEmpty || publicKey.isEmpty then false
  else
    match atob signature with
    | .error _ => false
    | .ok signatureBytes =>
      match parsePublicKey publicKey with
      | .error _ => false
      | .ok publicKeyBytes =>
        match naclVerify (utf8Encode message) signatureBytes publicKeyBytes with
        | some isValid => isValid
        | none => false

/-- C9: the signature verifier is total and fails closed.  `verifySignature`
returns a plain boolean on every input (in particular a tweetnacl exception,
`naclVerify … = none`, is caught and never propagates), and it returns `true`
only when the inputs are non-empty, the signature base64-decodes, the public
key parses, and the crypto library affirms the signature over exactly the
UTF-8 bytes of `message`.  Consequently malformed base64 signature bytes, a
malformed public key, any decode exception, and any input on which the
library does not answer `some true` — e.g. a correct signature over a
different message, for which a sound ed25519 verifier answers
`some false` — all yield `false`. -/
theorem verifySignature_fails_closed
    (naclVerify : List Nat → List Nat → List Nat → Option Bool)
    (message signature publicKey : String) :
    verifySignature naclVerify message signature publicKey = true ↔
      (message.isEmpty = false ∧ signature.isEmpty = false ∧ publicKey.isEmpty = false ∧
        ∃ sigBytes keyBytes, atob signature = .ok sigBytes ∧
          parsePublicKey publicKey = .ok keyBytes ∧
          naclVerify (utf8Encode message) sigBytes keyBytes = some true) := by
  unfold verifySignature
  constructor
  · intro h
    split at h
    · simp at h
    next hEmpty =>
      simp only [Bool.or_eq_true, not_or] at hEmpty
      split at h
      · simp at h
      next sigBytes hA =>
        split at h
        · simp at h
        next keyBytes hK =>
          split at h
          next b hV =>
            simp only [Bool.not_eq_true] at hEmpty
            obtain ⟨⟨hm, hs⟩, hk⟩ :
                (message.isEmpty = false ∧ signature.isEmpty = false) ∧
                  publicKey.isEmpty = false := by tauto
            refine ⟨hm, hs, hk, sigBytes, keyBytes, hA, hK, ?_⟩
            rw [hV, h]
          · simp at h
  · rintro ⟨hm, hs, hk, sigBytes, keyBytes, hA, hK, hV⟩
    simp [hm, hs, hk, hA, hK, hV]

/-! ## In-memory activation gate (`server/signatureVerification.js`) -/

/-- `markNonceUsed(nonce)`: add the nonce to the used set (a JS `Set`, so
adding an existing element is a no-op) and, once more than 10000 entries
have accumulated, clear the whole set. -/
def markNonceUsedList (usedNonces : List String) (nonce : String) : List String :=
  let added := if usedNonces.contains nonce then usedNonces else nonce :: usedNonces
  if 10000 < added.length then [] else added

/-- `validateNonceAndTimestamp(nonce, timestamp)`: reject an already-used
nonce, a timestamp older than 300 seconds, or a future timestamp; `none`
means valid.  `now` and `timestamp` are Unix seconds. -/
def validateNonceAndTimestamp (usedNonces : List String) (nonce : String)
    (now timestamp : Int) : Option String :=
  if usedNonces.contains nonce then
    some "Nonce already used (replay attack detected)"
  else
    let age := now - timestamp
    if 300 < age then some "Signature too old (timestamp expired)"
    else if age < 0 then some "Invalid timestamp (future timestamp)"
    else none

/-- `verifyWalletActivation(wallet, message, signature, nonce, timestamp)`:
verify the signature first, then validate nonce and timestamp, and only then
mark the nonce as used.  Returns the updated used-nonce set and `none` on
success or `some errorMessage` on failure. -/
def verifyWalletActivation (naclVerify : List Nat → List Nat → List Nat → Option Bool)
    (usedNonces : List String) (wallet message signature nonce : String)
    (now timestamp : Int) : List String × Option String :=
  if verifySignature naclVerify message signature wallet = false then
    (usedNonces, some "Invalid signature")
  else
    match validateNonceAndTimestamp usedNonces nonce now timestamp with
    | some err => (usedNonces, some err)
    | none => (markNonceUsedList usedNonces nonce, none)

/-- A crypto oracle that affirms every signature; used to exhibit concrete
runs in which the signature check passes. -/
def constTrueVerify : List Nat → List Nat → List Nat → Option Bool :=
  fun _ _ _ => some true

/-- A syntactically valid Solana address (32 base58 `1` characters decode to
the 32-byte zero key). -/
def sampleWallet : String := "11111111111111111111111111111111"

/-- C1: the in-memory activation gate does NOT consume a nonce when the
attempt's signature check fails.  Starting from an empty used-nonce set, a
first activation attempt with nonce `"n1"` and a malformed signature is
rejected as `Invalid signature` and leaves the used-nonce set empty, and a
second attempt with the same nonce `"n1"` and a valid signature then
SUCCEEDS (error `none`) instead of failing with the nonce-invalid error the
claim requires. -/
theorem nonce_reusable_after_failed_attempt :
    verifyWalletActivation constTrueVerify [] sampleWallet "activate" "####" "n1" 1000 1000
      = ([], some "Invalid signature")
    ∧ (verifyWalletActivation constTrueVerify
        (verifyWalletActivation constTrueVerify [] sampleWallet "activate" "####" "n1"
          1000 1000).1
        sampleWallet "activate" "QUJD" "n1" 1000 1000).2 = none := by
  constructor
  · rfl
  · rfl

/-! ## Supabase persistence model -/

/-- A row of the `nonces` table: the nonce and its expiry (ms epoch). -/
structure NonceRow where
  nonce : String
  expiresAt : Int
deriving DecidableEq

/-- A row of the `rewardful_conversions` table, keyed by `referral_id`. -/
structure ConversionRow where
  referralId : String
  wallet : String
  affiliateId : String
  convertedAt : Int
deriving DecidableEq

/-- The Supabase database as used by the serverless endpoints:
`nonces`, `wallet_activation`, `wallet_affiliates` (wallet, affiliate_id),
`referrals` (referee_wallet, referrer_wallet, referrer_affiliate_id) and
`rewardful_conversions`. -/
structure Db where
  nonces : List NonceRow
  walletActivation : List String
  walletAffiliates : List (String × String)
  referrals : List (String × String × String)
  conversions : List ConversionRow
deriving DecidableEq

/-! ## Supabase activation endpoint (verify-wallet serverless handler) -/

/-- Result of `verifyAndConsumeNonce`. -/
inductive NonceCheck
  | valid
  | invalid (code msg : String)
deriving DecidableEq

/-- `verifyAndConsumeNonce(nonce)`: look the nonce up in the `nonces` table;
absent → `NONCE_INVALID`; expired → delete it and return `NONCE_EXPIRED`;
otherwise delete it and return valid.  The nonce is consumed (deleted) by the
lookup itself, before any signature checking. -/
def verifyAndConsumeNonce (db : Db) (nonce : String) (now : Int) : Db × NonceCheck :=
  match db.nonces.find? (fun row => row.nonce == nonce) with
  | none => (db, .invalid "NONCE_INVALID" "Nonce not found")
  | some row =>
    let db' := { db with nonces := db.nonces.filter (fun r => r.nonce != nonce) }
    if row.expiresAt < now then (db', .invalid "NONCE_EXPIRED" "Nonce expired")
    else (db', .valid)

/-- The verify-wallet endpoint's `verifySignature(wallet, message, signature)`:
decode failures and a negative tweetnacl verdict are all reported as
`SIGNATURE_INVALID` (`some code`); `none` is success. -/
def verifySignatureSb (naclVerify : List Nat → List Nat → List Nat → Option Bool)
    (wallet message signature : String) : Option String :=
  match atob signature with
  | .error _ => some "SIGNATURE_INVALID"
  | .ok sigBytes =>
    match parsePublicKey wallet with
    | .error _ => some "SIGNATURE_INVALID"
    | .ok keyBytes =>
      match naclVerify (utf8Encode message) sigBytes keyBytes with
      | some true => none
      | some false => some "SIGNATURE_INVALID"
      | none => some "SIGNATURE_INVALID"

/-- `markWalletActivated(wallet)`: upsert into `wallet_activation`
(conflict target `wallet`, so at most one row per wallet). -/
def markWalletActivated (db : Db) (wallet : String) : Db :=
  if db.walletActivation.contains wallet then db
  else { db with walletActivation := wallet :: db.walletActivation }

/-- Outcome of the verify-wallet endpoint. -/
inductive ActivationOutcome
  | missingFields
  | nonceInvalid (code : String)
  | signatureExpired
  | signatureInvalid
  | activated
deriving DecidableEq

/-- The verify-wallet serverless handler: require all fields (a JS falsy
check, so timestamp `0` counts as missing), consume the nonce, then check
`Math.abs(now - timestamp*1000) > 300000` → `SIGNATURE_EXPIRED`, then verify
the signature, then upsert the activation record.  `timestamp` is Unix
seconds, `now` ms. -/
def verifyWalletHandler (naclVerify : List Nat → List Nat → List Nat → Option Bool)
    (db : Db) (wallet message signature nonce : String) (timestamp : Int)
    (now : Int) : Db × ActivationOutcome :=
  if wallet.isEmpty || message.isEmpty || signature.isEmpty || nonce.isEmpty
      || timestamp == 0 then
    (db, .missingFields)
  else
    match verifyAndConsumeNonce db nonce now with
    | (db', .invalid code _) => (db', .nonceInvalid code)
    | (db', .valid) =>
      if 300000 < (now - timestamp * 1000).natAbs then (db', .signatureExpired)
      else
        match verifySignatureSb naclVerify wallet message signature with
        | some _ => (db', .signatureInvalid)
        | none => (markWalletActivated db' wallet, .activated)

/-- A database holding one fresh nonce `"n1"` expiring at ms `2000000`. -/
def dbOneNonce : Db := ⟨[⟨"n1", 2000000⟩], [], [], [], []⟩

/-- C10 counterexample: the Supabase activation handler does not reject
future timestamps.  At `now = 1000000` ms, timestamp `1060` s lies strictly
in the future (`1060000 > 1000000` ms) yet `|now − timestamp·1000| = 60000 ≤
300000`, so activation SUCCEEDS instead of failing with SIGNATURE_EXPIRED as
the claim requires. -/
theorem future_timestamp_accepted :
    (1000000 : Int) < 1060 * 1000
    ∧ (verifyWalletHandler constTrueVerify dbOneNonce sampleWallet "activate" "QUJD"
        "n1" 1060 1000000).2 = .activated := by
  exact ⟨by norm_num, rfl⟩

/-- C10 (amended): for the Supabase activation handler, with all fields
present and the nonce check passing (the nonce exists and is unexpired), the
outcome is SIGNATURE_EXPIRED exactly when `|now − timestamp·1000| >
300000` ms — the handler has no separate `timestamp ≤ now` conjunct, so a
future timestamp within the 5-minute window is accepted. -/
theorem signature_expired_iff_freshness_window
    (naclVerify : List Nat → List Nat → List Nat → Option Bool) (db : Db)
    (wallet message signature nonce : String) (timestamp now : Int) (row : NonceRow)
    (hw : wallet.isEmpty = false) (hm : message.isEmpty = false)
    (hs : signature.isEmpty = false) (hn : nonce.isEmpty = false)
    (ht : (timestamp == 0) = false)
    (hfind : db.nonces.find? (fun r => r.nonce == nonce) = some row)
    (hexp : ¬ row.expiresAt < now) :
    (verifyWalletHandler naclVerify db wallet message signature nonce timestamp now).2
        = .signatureExpired
      ↔ 300000 < (now - timestamp * 1000).natAbs := by
  unfold verifyWalletHandler verifyAndConsumeNonce
  rw [hfind]
  simp only [hw, hm, hs, hn, ht, Bool.or_false, Bool.or_self, Bool.false_or,
    Bool.or_eq_true, if_neg hexp]
  constructor
  · intro h
    by_contra hlt
    simp only [if_neg hlt] at h
    cases hV : verifySignatureSb naclVerify wallet message signature with
    | some v => rw [hV] at h; simp at h
    | none => rw [hV] at h; simp at h
  · intro h
    simp [if_pos h]

/-- C10 witness: a concrete run discharging the amended theorem's
hypotheses, at `now = 1000000` ms and timestamp `2000` s (a future timestamp
beyond the window, `|now − 2000000| = 1000000 > 300000`), where the handler
indeed answers SIGNATURE_EXPIRED. -/
theorem signature_expired_iff_freshness_window_witness :
    (verifyWalletHandler constTrueVerify dbOneNonce sampleWallet "activate" "QUJD"
        "n1" 2000 1000000).2 = .signatureExpired
      ↔ 300000 < ((1000000 : Int) - 2000 * 1000).natAbs := by
  exact signature_expired_iff_freshness_window constTrueVerify dbOneNonce sampleWallet
    "activate" "QUJD" "n1" 2000 1000000 ⟨"n1", 2000000⟩ (by decide) (by decide)
    (by decide) (by decide) (by decide) (by decide) (by decide)

/-! ## Create-affiliate endpoint (Supabase serverless handler) -/

/-- `isWalletActivated(wallet)`: query the durable `wallet_activation` table. -/
def isWalletActivatedSb (db : Db) (wallet : String) : Bool :=
  db.walletActivation.contains wallet

/-- `getAffiliateId(wallet)`: read the `wallet_affiliates` mapping. -/
def getAffiliateId (db : Db) (wallet : String) : Option String :=
  (db.walletAffiliates.find? (fun p => p.1 == wallet)).map (fun p => p.2)

/-- `storeAffiliateMapping(wallet, affiliateId)`: upsert into
`wallet_affiliates` with conflict target `wallet`. -/
def storeAffiliateMapping (db : Db) (wallet affiliateId : String) : Db :=
  { db with walletAffiliates :=
      if db.walletAffiliates.any (fun p => p.1 == wallet) then
        db.walletAffiliates.map (fun p => if p.1 == wallet then (wallet, affiliateId) else p)
      else db.walletAffiliates ++ [(wallet, affiliateId)] }

/-- Outcome of the create-affiliate endpoint. -/
inductive AffiliateOutcome
  | missingWallet
  | notActivated
  | notEligible
  | apiError
  | issued (affiliateId : String)
deriving DecidableEq

/-- `createRewardfulAffiliate(wallet)`: return the stored affiliate id if one
exists; otherwise require an activation record, then call the external
Rewardful API (modelled by the oracle `rewardfulApi`, `none` for a failed
call) and store the returned id. -/
def createRewardfulAffiliate (db : Db) (wallet : String)
    (rewardfulApi : String → Option String) : Db × AffiliateOutcome :=
  match getAffiliateId db wallet with
  | some affiliateId => (db, .issued affiliateId)
  | none =>
    if isWalletActivatedSb db wallet = false then (db, .notActivated)
    else
      match rewardfulApi wallet with
      | none => (db, .apiError)
      | some affiliateId => (storeAffiliateMapping db wallet affiliateId, .issued affiliateId)

/-- The create-affiliate serverless handler: require a wallet, check the
durable `wallet_activation` table, check SOL eligibility (external oracle),
then create or retrieve the affiliate. -/
def createAffiliateHandler (db : Db) (wallet : String)
    (solEligible : String → Bool) (rewardfulApi : String → Option String) :
    Db × AffiliateOutcome :=
  if wallet.isEmpty then (db, .missingWallet)
  else if isWalletActivatedSb db wallet = false then (db, .notActivated)
  else if solEligible wallet = false then (db, .notEligible)
  else createRewardfulAffiliate db wallet rewardfulApi

/-- A client session reset (page reload): the frontend's in-memory
verification flag is discarded, but no server request is made and no
endpoint of the repository deletes `wallet_activation` rows, so the server
database is unchanged. -/
def clientSessionReset (db : Db) : Db := db

/-- C5 counterexample: activation status IS cached across a client session
reset, in the durable `wallet_activation` table.  A wallet activates once
(session one), the client session resets, and in the new session — with no
fresh activation call — the create-affiliate handler still issues the
privileged affiliate id, because its gate reads only the durable table. -/
theorem affiliate_issued_without_fresh_activation :
    (createAffiliateHandler
        (clientSessionReset
          (verifyWalletHandler constTrueVerify dbOneNonce sampleWallet "activate" "QUJD"
            "n1" 1000 1000000).1)
        sampleWallet (fun _ => true) (fun _ => some "aff_9")).2
      = .issued "aff_9" := by
  rfl

/-- C5 (amended): the gate that the code does enforce — the create-affiliate
handler refuses to issue an affiliate id for a wallet that has no record in
the durable `wallet_activation` table (i.e. one that never completed a
successful activation at any time), answering `notActivated` and leaving the
database unchanged; a record from any earlier session, however, satisfies
the gate with no re-verification required. -/
theorem affiliate_requires_some_activation_record (db : Db) (wallet : String)
    (solEligible : String → Bool) (rewardfulApi : String → Option String)
    (hw : wallet.isEmpty = false) (hact : isWalletActivatedSb db wallet = false) :
    createAffiliateHandler db wallet solEligible rewardfulApi = (db, .notActivated) := by
  unfold createAffiliateHandler
  simp [hw, hact]

/-- C5 witness: the never-activated wallet `"W2"` is refused by the
create-affiliate handler on the empty database. -/
theorem affiliate_requires_some_activation_record_witness :
    createAffiliateHandler ⟨[], [], [], [], []⟩ "W2" (fun _ => true)
        (fun _ => some "aff_9")
      = (⟨[], [], [], [], []⟩, .notActivated) := by
  exact affiliate_requires_some_activation_record ⟨[], [], [], [], []⟩ "W2"
    (fun _ => true) (fun _ => some "aff_9") (by decide) (by decide)

/-! ## Rewardful webhook completion processor (api/webhooks/rewardful.js) -/

/-- The fields of a Rewardful webhook payload consulted by the handler.  The
ten optional wallet fields are, in source order:
`customer.metadata.wallet`, `customer.wallet`,
`referral.customer.metadata.wallet`, `referral.customer.wallet`,
`referral.metadata.referred_wallet`, `referral.metadata.wallet`,
`sale.customer.metadata.wallet`, `sale.customer.wallet`,
`metadata.referred_wallet`, `metadata.wallet`. -/
structure WebhookPayload where
  affiliateId : Option String
  referralIdNested : Option String
  idField : Option String
  convertedAtField : Option Int
  createdAtField : Option Int
  customerMetadataWallet : Option String
  customerWallet : Option String
  referralCustomerMetadataWallet : Option String
  referralCustomerWallet : Option String
  referralMetadataReferredWallet : Option String
  referralMetadataWallet : Option String
  saleCustomerMetadataWallet : Option String
  saleCustomerWallet : Option String
  metadataReferredWallet : Option String
  metadataWallet : Option String
deriving DecidableEq

/-- `payload.referral?.id || payload.id`. -/
def WebhookPayload.referralId (p : WebhookPayload) : Option String :=
  p.referralIdNested.orElse (fun _ => p.idField)

/-- The candidate referred-wallet fields, `filter(Boolean)` (dropping both
absent fields and empty strings, which are falsy in JS). -/
def referredWalletCandidates (p : WebhookPayload) : List String :=
  ([p.customerMetadataWallet, p.customerWallet, p.referralCustomerMetadataWallet,
    p.referralCustomerWallet, p.referralMetadataReferredWallet, p.referralMetadataWallet,
    p.saleCustomerMetadataWallet, p.saleCustomerWallet, p.metadataReferredWallet,
    p.metadataWallet].filterMap id).filter (fun s => !s.isEmpty)

/-- Deduplication pass keeping the first occurrence of each element, with
`seen` accumulating the elements already emitted. -/
def jsSetDedupAux (seen : List String) : List String → List String
  | [] => []
  | x :: xs =>
    if seen.contains x then jsSetDedupAux seen xs
    else x :: jsSetDedupAux (x :: seen) xs

/-- `[...new Set(candidates)]`: deduplicate keeping first occurrences. -/
def jsSetDedup (l : List String) : List String :=
  jsSetDedupAux [] l

/-- `isReferralProcessed(referralId)`: does `rewardful_conversions` hold a row
with this `referral_id`? -/
def isReferralProcessedDb (conversions : List ConversionRow) (referralId : String) : Bool :=
  conversions.any (fun r => r.referralId == referralId)

/-- `getReferralCount(wallet)`: count `rewardful_conversions` rows whose
`wallet` column is this referrer. -/
def getReferralCountDb (conversions : List ConversionRow) (wallet : String) : Nat :=
  (conversions.filter (fun r => r.wallet == wallet)).length

/-- Supabase upsert into `rewardful_conversions` with conflict target
`referral_id`: replace the existing row or append a new one. -/
def upsertConversion (conversions : List ConversionRow) (row : ConversionRow) :
    List ConversionRow :=
  if conversions.any (fun r => r.referralId == row.referralId) then
    conversions.map (fun r => if r.referralId == row.referralId then row else r)
  else conversions ++ [row]

/-- Result record of `incrementReferralCount`. -/
structure IncrementResult where
  success : Bool
  newCount : Nat
  capped : Bool
deriving DecidableEq

/-- `incrementReferralCount(wallet, referralId, affiliateId, convertedAt)`:
if the referrer already has `≥ 3` conversions, still store the conversion
row (idempotency/audit) but report `capped`; otherwise store it and report
the incremented count. -/
def incrementReferralCountDb (conversions : List ConversionRow)
    (wallet referralId affiliateId : String) (convertedAt : Int) :
    List ConversionRow × IncrementResult :=
  let currentCount := getReferralCountDb conversions wallet
  let row : ConversionRow := ⟨referralId, wallet, affiliateId, convertedAt⟩
  if 3 ≤ currentCount then
    (upsertConversion conversions row, ⟨false, currentCount, true⟩)
  else
    (upsertConversion conversions row,
      ⟨true, currentCount + 1, decide (3 ≤ currentCount + 1)⟩)

/-- The allocation multiplier record. -/
structure Multiplier where
  base : Nat
  bonus : Nat
  total : Nat
  referrals : Nat
deriving DecidableEq

/-- `calculateAllocationMultiplier` over a completed-referral count:
`bonus = min(count, 3) * 1`, `total = min(2 + bonus, 3)`. -/
def calculateAllocationMultiplier (successfulReferrals : Nat) : Multiplier :=
  let bonus := min successfulReferrals 3 * 1
  { base := 2, bonus := bonus, total := min (2 + bonus) 3, referrals := successfulReferrals }

/-- `calculateAllocationMultiplier(wallet)` as the webhook computes it, from
the conversion rows. -/
def calculateAllocationMultiplierDb (conversions : List ConversionRow)
    (wallet : String) : Multiplier :=
  calculateAllocationMultiplier (getReferralCountDb conversions wallet)

/-- `multiplier.referrals >= 3`, the `max_bonus_reached` flag computed by the
progress endpoints. -/
def maxBonusReached (m : Multiplier) : Bool :=
  decide (3 ≤ m.referrals)

/-- Outcome of `handleReferralConverted`. -/
inductive ConversionOutcome
  | missingAffiliateId
  | missingReferralId
  | alreadyProcessed
  | unknownAffiliate
  | ambiguousReferredWallet
  | ineligible
  | capped
  | completed (wallet : String) (newCount : Nat) (total : Nat)
deriving DecidableEq

/-- `handleReferralConverted(payload, affiliateWalletMap)`: extract the ids,
check idempotency against `rewardful_conversions`, resolve the affiliate to
the referrer wallet, resolve the referred wallet (requiring exactly one
distinct candidate), check SOL eligibility of the referred wallet (storing
the conversion but not counting it when ineligible), then increment the
referrer's count (which stores the row, reporting `capped` past 3). -/
def handleReferralConverted (conversions : List ConversionRow)
    (affiliateWalletMap : List (String × String)) (solEligible : String → Bool)
    (p : WebhookPayload) (now : Int) : List ConversionRow × ConversionOutcome :=
  match p.affiliateId with
  | none => (conversions, .missingAffiliateId)
  | some affiliateId =>
    match p.referralId with
    | none => (conversions, .missingReferralId)
    | some referralId =>
      let convertedAt := ((p.convertedAtField).orElse (fun _ => p.createdAtField)).getD now
      if isReferralProcessedDb conversions referralId then
        (conversions, .alreadyProcessed)
      else
        match affiliateWalletMap.find? (fun q => q.1 == affiliateId) with
        | none => (conversions, .unknownAffiliate)
        | some pr =>
          let referrerWallet := pr.2
          let uniq := jsSetDedup (referredWalletCandidates p)
          if uniq.length ≠ 1 then (conversions, .ambiguousReferredWallet)
          else
            let referredWallet := uniq.headD ""
            if solEligible referredWallet = false then
              (upsertConversion conversions ⟨referralId, referrerWallet, affiliateId, convertedAt⟩,
                .ineligible)
            else
              let step := incrementReferralCountDb conversions referrerWallet referralId
                affiliateId convertedAt
              if !step.2.success && step.2.capped then (step.1, .capped)
              else
                (step.1, .completed referrerWallet step.2.newCount
                  (calculateAllocationMultiplierDb step.1 referrerWallet).total)

/-! ## Referral-progress endpoint (Supabase serverless handler) -/

/-- The progress endpoint's `getReferralCount(wallet)`: count rows of the
`referrals` table whose `referrer_wallet` column is this wallet. -/
def getReferralCountProgress (referrals : List (String × String × String))
    (wallet : String) : Nat :=
  (referrals.filter (fun r => r.2.1 == wallet)).length

/-- The JSON body returned by the progress endpoint. -/
structure ProgressResponse where
  successfulReferrals : Nat
  base : Nat
  bonus : Nat
  total : Nat
  maxBonus : Bool
deriving DecidableEq

/-- The referral-progress handler: count from the `referrals` table, compute
the multiplier from that count, and report `max_bonus_reached` as
`multiplier.referrals >= 3`. -/
def referralProgressHandler (db : Db) (wallet : String) : ProgressResponse :=
  let count := getReferralCountProgress db.referrals wallet
  let m := calculateAllocationMultiplier count
  ⟨count, m.base, m.bonus, m.total, maxBonusReached m⟩

/-- C3: the Multiplier Calculator is the pure function
`total = min(2 + min(c, 3) * 1, 3)`: for every count the base is 2, the bonus
is `min(c, 3)`, the total is the clamped sum, `max_bonus_reached` holds
exactly when `c ≥ 3`, and for counts 0,1,2,3,4 the totals are 2,3,3,3,3. -/
theorem multiplier_calculator_spec (c : Nat) :
    (calculateAllocationMultiplier c).base = 2
    ∧ (calculateAllocationMultiplier c).bonus = min c 3
    ∧ (calculateAllocationMultiplier c).total = min (2 + min c 3 * 1) 3
    ∧ (maxBonusReached (calculateAllocationMultiplier c) = true ↔ 3 ≤ c)
    ∧ [(calculateAllocationMultiplier 0).total, (calculateAllocationMultiplier 1).total,
       (calculateAllocationMultiplier 2).total, (calculateAllocationMultiplier 3).total,
       (calculateAllocationMultiplier 4).total] = [2, 3, 3, 3, 3] := by
  refine ⟨rfl, ?_, rfl, ?_, by decide⟩
  · simp [calculateAllocationMultiplier]
  · simp [maxBonusReached, calculateAllocationMultiplier]

/-- C6: the progress read endpoint does NOT report the count committed by the
Completion Processor.  After the webhook processes one conversion for
referrer `"W1"` (committing one `rewardful_conversions` row, so the
processor-side count is 1), the progress handler — which counts rows of the
`referrals` attribution table instead, contradicting its own header comment
naming the `rewardful_conversions` table — returns `completed_referrals = 0`
and multiplier total 2, not the `1` and total-3 multiplier the claim
requires. -/
theorem progress_count_disagrees_with_processor :
    getReferralCountDb
        (handleReferralConverted [] [("A1", "W1")] (fun _ => true)
          ⟨some "A1", some "x", none, some 5, none, some "W2", none, none, none, none,
            none, none, none, none, none⟩ 5).1 "W1" = 1
    ∧ referralProgressHandler
        ⟨[], [], [],  [],
          (handleReferralConverted [] [("A1", "W1")] (fun _ => true)
            ⟨some "A1", some "x", none, some 5, none, some "W2", none, none, none, none,
              none, none, none, none, none⟩ 5).1⟩ "W1"
      = ⟨0, 2, 0, 2, false⟩ := by
  exact ⟨rfl, rfl⟩

/-! ## Idempotency and cap lemmas for the completion processor -/

/-- An unprocessed referral id matches no stored conversion row. -/
theorem filter_eq_nil_of_not_processed (c : List ConversionRow) (rid : String)
    (h : isReferralProcessedDb c rid = false) :
    c.filter (fun r => r.referralId == rid) = [] := by
  simp only [isReferralProcessedDb, List.any_eq_false] at h
  simpa [List.filter_eq_nil_iff] using h

/-- Upserting an unprocessed referral id appends its row. -/
theorem upsert_eq_append_of_not_processed (c : List ConversionRow) (row : ConversionRow)
    (h : isReferralProcessedDb c row.referralId = false) :
    upsertConversion c row = c ++ [row] := by
  unfold upsertConversion
  unfold isReferralProcessedDb at h
  simp [h]

/-- After appending a row, its referral id counts as processed. -/
theorem processed_after_append (c : List ConversionRow) (row : ConversionRow) :
    isReferralProcessedDb (c ++ [row]) row.referralId = true := by
  simp [isReferralProcessedDb]

/-- A first delivery that resolves (well-formed payload, known affiliate,
uniquely resolved referred wallet) always stores the conversion row, on every
reachable path (ineligible, capped, or completed). -/
theorem handle_first_delivery_state (c : List ConversionRow)
    (map : List (String × String)) (elig : String → Bool) (p : WebhookPayload)
    (now : Int) (a rid : String) (pr : String × String)
    (hA : p.affiliateId = some a) (hR : p.referralId = some rid)
    (hNP : isReferralProcessedDb c rid = false)
    (hF : map.find? (fun q => q.1 == a) = some pr)
    (hU : (jsSetDedup (referredWalletCandidates p)).length = 1) :
    (handleReferralConverted c map elig p now).1
      = c ++ [⟨rid, pr.2, a, ((p.convertedAtField).orElse (fun _ => p.createdAtField)).getD now⟩] := by
  have hrow : upsertConversion c
      ⟨rid, pr.2, a, ((p.convertedAtField).orElse (fun _ => p.createdAtField)).getD now⟩
      = c ++ [⟨rid, pr.2, a, ((p.convertedAtField).orElse (fun _ => p.createdAtField)).getD now⟩] :=
    upsert_eq_append_of_not_processed c _ hNP
  unfold handleReferralConverted
  simp only [hA, hR, hNP, hF, hU, Bool.false_eq_true, if_false, ne_eq,
    not_true_eq_false, incrementReferralCountDb]
  split
  · exact hrow
  · split
    · exact hrow
    · split <;> exact hrow

/-- A delivery whose referral id is already stored is a no-op: the state is
returned unchanged with the ALREADY_PROCESSED outcome. -/
theorem handle_already_processed (c : List ConversionRow)
    (map : List (String × String)) (elig : String → Bool) (p : WebhookPayload)
    (now : Int) (a rid : String)
    (hA : p.affiliateId = some a) (hR : p.referralId = some rid)
    (hP : isReferralProcessedDb c rid = true) :
    handleReferralConverted c map elig p now = (c, .alreadyProcessed) := by
  unfold handleReferralConverted
  rw [hA, hR]
  simp [hP]

/-- C2: completion is idempotent.  For a completion event that resolves (the
payload carries an affiliate id and referral id, the affiliate is known, and
the referred wallet resolves uniquely) and whose referral id is new,
delivering it twice leaves exactly one stored ConversionRecord for that
referral id; the second delivery changes no state, reports the
ALREADY_PROCESSED outcome, and the referrer's completed-referral count after
the second delivery equals its count after the first. -/
theorem completion_idempotent (c : List ConversionRow)
    (map : List (String × String)) (elig : String → Bool) (p : WebhookPayload)
    (now now' : Int) (a rid : String) (pr : String × String)
    (hA : p.affiliateId = some a) (hR : p.referralId = some rid)
    (hNP : isReferralProcessedDb c rid = false)
    (hF : map.find? (fun q => q.1 == a) = some pr)
    (hU : (jsSetDedup (referredWalletCandidates p)).length = 1) :
    (handleReferralConverted (handleReferralConverted c map elig p now).1 map elig p now').2
        = .alreadyProcessed
    ∧ (handleReferralConverted (handleReferralConverted c map elig p now).1 map elig p now').1
        = (handleReferralConverted c map elig p now).1
    ∧ ((handleReferralConverted c map elig p now).1.filter
        (fun r => r.referralId == rid)).length = 1
    ∧ getReferralCountDb
          (handleReferralConverted (handleReferralConverted c map elig p now).1 map elig p now').1
          pr.2
        = getReferralCountDb (handleReferralConverted c map elig p now).1 pr.2 := by
  have h1 := handle_first_delivery_state c map elig p now a rid pr hA hR hNP hF hU
  have hP : isReferralProcessedDb (handleReferralConverted c map elig p now).1 rid = true := by
    rw [h1]
    exact processed_after_append c _
  have h2 := handle_already_processed (handleReferralConverted c map elig p now).1
    map elig p now' a rid hA hR hP
  refine ⟨by rw [h2], by rw [h2], ?_, by rw [h2]⟩
  rw [h1]
  rw [List.filter_append, filter_eq_nil_of_not_processed c rid hNP]
  simp

/-- C2 witness: a concrete double delivery of referral `"r1"` attributed to
affiliate `"A1"` (referrer `"W1"`), starting from an empty conversion
store. -/
theorem completion_idempotent_witness :
    (handleReferralConverted
          (handleReferralConverted [] [("A1", "W1")] (fun _ => true)
            ⟨some "A1", some "r1", none, some 7, none, some "W2", none, none, none, none,
              none, none, none, none, none⟩ 7).1
          [("A1", "W1")] (fun _ => true)
          ⟨some "A1", some "r1", none, some 7, none, some "W2", none, none, none, none,
            none, none, none, none, none⟩ 8).2
        = .alreadyProcessed
    ∧ (handleReferralConverted
          (handleReferralConverted [] [("A1", "W1")] (fun _ => true)
            ⟨some "A1", some "r1", none, some 7, none, some "W2", none, none, none, none,
              none, none, none, none, none⟩ 7).1
          [("A1", "W1")] (fun _ => true)
          ⟨some "A1", some "r1", none, some 7, none, some "W2", none, none, none, none,
            none, none, none, none, none⟩ 8).1
        = (handleReferralConverted [] [("A1", "W1")] (fun _ => true)
            ⟨some "A1", some "r1", none, some 7, none, some "W2", none, none, none, none,
              none, none, none, none, none⟩ 7).1
    ∧ ((handleReferralConverted [] [("A1", "W1")] (fun _ => true)
          ⟨some "A1", some "r1", none, some 7, none, some "W2", none, none, none, none,
            none, none, none, none, none⟩ 7).1.filter
        (fun r => r.referralId == "r1")).length = 1
    ∧ getReferralCountDb
          (handleReferralConverted
            (handleReferralConverted [] [("A1", "W1")] (fun _ => true)
              ⟨some "A1", some "r1", none, some 7, none, some "W2", none, none, none, none,
                none, none, none, none, none⟩ 7).1
            [("A1", "W1")] (fun _ => true)
            ⟨some "A1", some "r1", none, some 7, none, some "W2", none, none, none, none,
              none, none, none, none, none⟩ 8).1 "W1"
        = getReferralCountDb
            (handleReferralConverted [] [("A1", "W1")] (fun _ => true)
              ⟨some "A1", some "r1", none, some 7, none, some "W2", none, none, none, none,
                none, none, none, none, none⟩ 7).1 "W1" := by
  exact completion_idempotent [] [("A1", "W1")] (fun _ => true)
    ⟨some "A1", some "r1", none, some 7, none, some "W2", none, none, none, none,
      none, none, none, none, none⟩ 7 8 "A1" "r1" ("A1", "W1")
    rfl rfl (by decide) (by decide) (by decide)

/-- C4: cap enforcement with a durable record and an unbounded raw count.
For a referrer with exactly 3 stored conversions, a 4th distinct conversion
that resolves and is eligible is reported as the CAPPED outcome, yet is
still durably recorded in `rewardful_conversions`; the raw completed-referral
count derived from the store becomes 4, while the multiplier stays at
base 2, bonus 3, total 3, with `max_bonus_reached` true. -/
theorem fourth_conversion_capped (c : List ConversionRow)
    (map : List (String × String)) (elig : String → Bool) (p : WebhookPayload)
    (now : Int) (a rid : String) (pr : String × String)
    (hA : p.affiliateId = some a) (hR : p.referralId = some rid)
    (hNP : isReferralProcessedDb c rid = false)
    (hF : map.find? (fun q => q.1 == a) = some pr)
    (hU : (jsSetDedup (referredWalletCandidates p)).length = 1)
    (hE : elig ((jsSetDedup (referredWalletCandidates p)).headD "") = true)
    (hcount : getReferralCountDb c pr.2 = 3) :
    (handleReferralConverted c map elig p now).2 = .capped
    ∧ isReferralProcessedDb (handleReferralConverted c map elig p now).1 rid = true
    ∧ getReferralCountDb (handleReferralConverted c map elig p now).1 pr.2 = 4
    ∧ calculateAllocationMultiplierDb (handleReferralConverted c map elig p now).1 pr.2
        = ⟨2, 3, 3, 4⟩
    ∧ maxBonusReached
        (calculateAllocationMultiplierDb (handleReferralConverted c map elig p now).1 pr.2)
        = true := by
  have h1 := handle_first_delivery_state c map elig p now a rid pr hA hR hNP hF hU
  have hcount' : getReferralCountDb (handleReferralConverted c map elig p now).1 pr.2 = 4 := by
    rw [h1]
    unfold getReferralCountDb at hcount ⊢
    rw [List.filter_append, List.length_append, hcount]
    simp
  have houtcome : (handleReferralConverted c map elig p now).2 = .capped := by
    unfold handleReferralConverted
    simp only [hA, hR, hNP, hF, hU, hE, Bool.false_eq_true, if_false, ne_eq,
      not_true_eq_false, Bool.true_eq_false, incrementReferralCountDb, hcount]
    norm_num
  refine ⟨houtcome, ?_, hcount', ?_, ?_⟩
  · rw [h1]
    exact processed_after_append c _
  · rw [calculateAllocationMultiplierDb, hcount']
    rfl
  · rw [calculateAllocationMultiplierDb, hcount']
    rfl

/-- C4 witness: referrer `"W1"` holds conversions `r1, r2, r3`; the distinct
conversion `"r4"` is delivered, reported CAPPED, stored, and the raw count
becomes 4 with the multiplier pinned at `⟨2, 3, 3⟩`. -/
theorem fourth_conversion_capped_witness :
    (handleReferralConverted
        [⟨"r1", "W1", "A1", 1⟩, ⟨"r2", "W1", "A1", 2⟩, ⟨"r3", "W1", "A1", 3⟩]
        [("A1", "W1")] (fun _ => true)
        ⟨some "A1", some "r4", none, some 9, none, some "W2", none, none, none, none,
          none, none, none, none, none⟩ 9).2 = .capped
    ∧ isReferralProcessedDb
        (handleReferralConverted
          [⟨"r1", "W1", "A1", 1⟩, ⟨"r2", "W1", "A1", 2⟩, ⟨"r3", "W1", "A1", 3⟩]
          [("A1", "W1")] (fun _ => true)
          ⟨some "A1", some "r4", none, some 9, none, some "W2", none, none, none, none,
            none, none, none, none, none⟩ 9).1 "r4" = true
    ∧ getReferralCountDb
        (handleReferralConverted
          [⟨"r1", "W1", "A1", 1⟩, ⟨"r2", "W1", "A1", 2⟩, ⟨"r3", "W1", "A1", 3⟩]
          [("A1", "W1")] (fun _ => true)
          ⟨some "A1", some "r4", none, some 9, none, some "W2", none, none, none, none,
            none, none, none, none, none⟩ 9).1 "W1" = 4
    ∧ calculateAllocationMultiplierDb
        (handleReferralConverted
          [⟨"r1", "W1", "A1", 1⟩, ⟨"r2", "W1", "A1", 2⟩, ⟨"r3", "W1", "A1", 3⟩]
          [("A1", "W1")] (fun _ => true)
          ⟨some "A1", some "r4", none, some 9, none, some "W2", none, none, none, none,
            none, none, none, none, none⟩ 9).1 "W1" = ⟨2, 3, 3, 4⟩
    ∧ maxBonusReached
        (calculateAllocationMultiplierDb
          (handleReferralConverted
            [⟨"r1", "W1", "A1", 1⟩, ⟨"r2", "W1", "A1", 2⟩, ⟨"r3", "W1", "A1", 3⟩]
            [("A1", "W1")] (fun _ => true)
            ⟨some "A1", some "r4", none, some 9, none, some "W2", none, none, none, none,
              none, none, none, none, none⟩ 9).1 "W1") = true := by
  exact fourth_conversion_capped
    [⟨"r1", "W1", "A1", 1⟩, ⟨"r2", "W1", "A1", 2⟩, ⟨"r3", "W1", "A1", 3⟩]
    [("A1", "W1")] (fun _ => true)
    ⟨some "A1", some "r4", none, some 9, none, some "W2", none, none, none, none,
      none, none, none, none, none⟩ 9 "A1" "r4" ("A1", "W1")
    rfl rfl (by decide) (by decide) (by decide) (by decide) (by decide)

/-! ## Attribution ledger (`src/mockBackend.ts`) -/

/-- The mock backend's `verifySignature`: empty inputs fail, then the
signature must be valid base64 and the public key well-formed (each failure
caught as `false`); the tweetnacl verdict is then returned, with a browser
exception (`none`) falling back to the structure-only check that both byte
arrays are non-empty.  The source validates `atob(signature)` and
`new PublicKey(publicKey)` and then re-decodes the same strings for the
verification call. -/
def verifySignatureMock (naclVerify : List Nat → List Nat → List Nat → Option Bool)
    (message signature publicKey : String) : Bool :=
  if message.isEmpty || signature.isEmpty || publicKey.isEmpty then false
  else
    match atob signature, parsePublicKey publicKey with
    | .ok sigBytes, .ok keyBytes =>
      (match naclVerify (utf8Encode message) sigBytes keyBytes with
       | some verdict => verdict
       | none => decide (0 < sigBytes.length) && decide (0 < keyBytes.length))
    | _, _ => false

/-- The mock backend's `validateNonceAndTimestamp`, in milliseconds
(`SIGNATURE_TIMEOUT_MS = 300000`). -/
def validateNonceAndTimestampMock (usedNonces : List String) (nonce : String)
    (now timestamp : Int) : Option String :=
  if usedNonces.contains nonce then
    some "Nonce already used (replay attack detected)"
  else
    let age := now - timestamp
    if 300000 < age then some "Signature too old (timestamp expired)"
    else if age < 0 then some "Invalid timestamp (future timestamp)"
    else none

/-- A `referralMappingStore` record, keyed by the referred wallet. -/
structure MappingRecord where
  affiliateId : String
  referrerWallet : String
  referredWallet : String
  referredValidated : Bool
  validatedAt : Option Int
  attributedAt : Int
deriving DecidableEq

/-- The mock backend's stores used by `attributeReferral`: used nonces, the
`affiliate_id → wallet_address` map, and the attribution map keyed by
referred wallet. -/
structure MockState where
  usedNonces : List String
  affiliateIdStore : List (String × String)
  referralMappingStore : List (String × MappingRecord)
deriving DecidableEq

/-- An `attributeReferral` request. -/
structure AttributeRequest where
  referredWallet : String
  affiliateId : String
  message : String
  signature : String
  nonce : String
  timestamp : Int
deriving DecidableEq

/-- An `attributeReferral` response (`success`, `message`,
`is_self_referral`, `already_attributed`; absent flags are `false`). -/
structure AttributeResponse where
  success : Bool
  message : String
  isSelfReferral : Bool
  alreadyAttributed : Bool
deriving DecidableEq

/-- `attributeReferral(request)`: verify the signature of the referred
wallet, validate and consume the nonce, resolve the affiliate id, reject
self-referrals, return the existing record's verdict when the referred
wallet is already attributed (matching affiliate → success with
`already_attributed`, different affiliate → error), and otherwise record the
attribution. -/
def attributeReferral (naclVerify : List Nat → List Nat → List Nat → Option Bool)
    (st : MockState) (req : AttributeRequest) (now : Int) :
    MockState × AttributeResponse :=
  if verifySignatureMock naclVerify req.message req.signature req.referredWallet = false then
    (st, ⟨false, "Invalid signature", false, false⟩)
  else
    match validateNonceAndTimestampMock st.usedNonces req.nonce now req.timestamp with
    | some err => (st, ⟨false, err, false, false⟩)
    | none =>
      let st' : MockState := { st with usedNonces := markNonceUsedList st.usedNonces req.nonce }
      match st'.affiliateIdStore.find? (fun q => q.1 == req.affiliateId) with
      | none => (st', ⟨false, "Invalid affiliate ID", false, false⟩)
      | some pr =>
        if req.referredWallet == pr.2 then
          (st', ⟨false, "Self-referrals are not allowed", true, false⟩)
        else
          match st'.referralMappingStore.find? (fun q => q.1 == req.referredWallet) with
          | some existing =>
            if existing.2.affiliateId == req.affiliateId then
              (st', ⟨true, "Referral already attributed", false, true⟩)
            else
              (st', ⟨false, "Wallet already attributed to different affiliate", false, true⟩)
          | none =>
            ({ st' with referralMappingStore :=
                (req.referredWallet,
                  ⟨req.affiliateId, pr.2, req.referredWallet, false, none, now⟩)
                  :: st'.referralMappingStore },
              ⟨true, "Referral attributed successfully", false, false⟩)

/-- C7: attribution is first-wins and immutable.  Given a referred wallet `R`
already attributed to affiliate `A`: (i) any later `attributeReferral` for
`R` naming a different affiliate fails (`success = false`) and leaves the
attribution store unchanged — so the stored record keeps affiliate `A` — on
every path (bad signature, used nonce, unknown affiliate, self-referral, or
the conflicting-binding rejection); (ii) a later authorized
`attributeReferral` for `R` naming the same affiliate `A` succeeds with the
`already_attributed` flag and also leaves the attribution store unchanged,
creating no new record in either case. -/
theorem first_wins_attribution (st : MockState) (R A : String)
    (ex : String × MappingRecord)
    (hfind : st.referralMappingStore.find? (fun q => q.1 == R) = some ex)
    (haff : ex.2.affiliateId = A) :
    (∀ (V : List Nat → List Nat → List Nat → Option Bool) (req : AttributeRequest)
        (now : Int), req.referredWallet = R → req.affiliateId ≠ A →
        (attributeReferral V st req now).2.success = false
        ∧ (attributeReferral V st req now).1.referralMappingStore
            = st.referralMappingStore)
    ∧ (∀ (V : List Nat → List Nat → List Nat → Option Bool) (req : AttributeRequest)
        (now : Int) (pr' : String × String),
        req.referredWallet = R → req.affiliateId = A →
        verifySignatureMock V req.message req.signature req.referredWallet = true →
        validateNonceAndTimestampMock st.usedNonces req.nonce now req.timestamp = none →
        st.affiliateIdStore.find? (fun q => q.1 == A) = some pr' →
        (R == pr'.2) = false →
        (attributeReferral V st req now).2
            = ⟨true, "Referral already attributed", false, true⟩
        ∧ (attributeReferral V st req now).1.referralMappingStore
            = st.referralMappingStore) := by
  constructor
  · intro V req now hRW hB
    have hmap : st.referralMappingStore.find? (fun q => q.1 == req.referredWallet)
        = some ex := by rw [hRW]; exact hfind
    unfold attributeReferral
    dsimp only
    split
    · exact ⟨rfl, rfl⟩
    next hsig =>
      split
      next err hval => exact ⟨rfl, rfl⟩
      next hval =>
        split
        next hfa => exact ⟨rfl, rfl⟩
        next pr hfa =>
          split
          next hself => exact ⟨rfl, rfl⟩
          next hself =>
            split
            next exi hfound =>
              rw [hmap] at hfound
              injection hfound with hexx
              subst hexx
              split
              next hsame =>
                have heq : ex.2.affiliateId = req.affiliateId := by simpa using hsame
                exact absurd (heq.symm.trans haff) hB
              next hdiff => exact ⟨rfl, rfl⟩
            next hnone =>
              rw [hmap] at hnone
              exact absurd hnone (by simp)
  · intro V req now pr' hRW hBA hsig hval hfa hself
    have hfa' : st.affiliateIdStore.find? (fun q => q.1 == req.affiliateId)
        = some pr' := by rw [hBA]; exact hfa
    have hself' : (req.referredWallet == pr'.2) = false := by rw [hRW]; exact hself
    have hmap : st.referralMappingStore.find? (fun q => q.1 == req.referredWallet)
        = some ex := by rw [hRW]; exact hfind
    have hsame : (ex.2.affiliateId == req.affiliateId) = true := by
      rw [haff, hBA]
      exact beq_self_eq_true A
    unfold attributeReferral
    dsimp only
    rw [hsig, hval]
    simp only [Bool.true_eq_false, if_false]
    rw [hfa']
    dsimp only
    rw [hself']
    simp only [Bool.false_eq_true, if_false]
    rw [hmap]
    dsimp only
    rw [hsame]
    simp only [if_true]
    exact ⟨by trivial, by trivial⟩

/-- C7 witness: the concrete store in which referred wallet `"W2"` is bound
to affiliate `"aff_9"` (referrer `"W9"`), discharging the hypotheses of the
first-wins theorem. -/
theorem first_wins_attribution_witness :
    (∀ (V : List Nat → List Nat → List Nat → Option Bool) (req : AttributeRequest)
        (now : Int), req.referredWallet = "W2" → req.affiliateId ≠ "aff_9" →
        (attributeReferral V
            ⟨[], [("aff_9", "W9")], [("W2", ⟨"aff_9", "W9", "W2", false, none, 0⟩)]⟩
            req now).2.success = false
        ∧ (attributeReferral V
            ⟨[], [("aff_9", "W9")], [("W2", ⟨"aff_9", "W9", "W2", false, none, 0⟩)]⟩
            req now).1.referralMappingStore
            = (⟨[], [("aff_9", "W9")], [("W2", ⟨"aff_9", "W9", "W2", false, none, 0⟩)]⟩
                : MockState).referralMappingStore)
    ∧ (∀ (V : List Nat → List Nat → List Nat → Option Bool) (req : AttributeRequest)
        (now : Int) (pr' : String × String),
        req.referredWallet = "W2" → req.affiliateId = "aff_9" →
        verifySignatureMock V req.message req.signature req.referredWallet = true →
        validateNonceAndTimestampMock
          (⟨[], [("aff_9", "W9")], [("W2", ⟨"aff_9", "W9", "W2", false, none, 0⟩)]⟩
            : MockState).usedNonces req.nonce now req.timestamp = none →
        (⟨[], [("aff_9", "W9")], [("W2", ⟨"aff_9", "W9", "W2", false, none, 0⟩)]⟩
            : MockState).affiliateIdStore.find? (fun q => q.1 == "aff_9") = some pr' →
        ("W2" == pr'.2) = false →
        (attributeReferral V
            ⟨[], [("aff_9", "W9")], [("W2", ⟨"aff_9", "W9", "W2", false, none, 0⟩)]⟩
            req now).2
            = ⟨true, "Referral already attributed", false, true⟩
        ∧ (attributeReferral V
            ⟨[], [("aff_9", "W9")], [("W2", ⟨"aff_9", "W9", "W2", false, none, 0⟩)]⟩
            req now).1.referralMappingStore
            = (⟨[], [("aff_9", "W9")], [("W2", ⟨"aff_9", "W9", "W2", false, none, 0⟩)]⟩
                : MockState).referralMappingStore) := by
  exact first_wins_attribution
    ⟨[], [("aff_9", "W9")], [("W2", ⟨"aff_9", "W9", "W2", false, none, 0⟩)]⟩
    "W2" "aff_9" ("W2", ⟨"aff_9", "W9", "W2", false, none, 0⟩) (by decide) (by decide)

/-- C8: self-referral is always rejected before any write.  For an
authorized request (valid signature, fresh nonce) whose affiliate id
resolves to the requesting wallet itself, `attributeReferral` answers the
self-referral rejection (`success = false`, `is_self_referral = true`) and
the attribution store is unchanged — no AttributionRecord is created. -/
theorem self_referral_rejected (st : MockState)
    (V : List Nat → List Nat → List Nat → Option Bool) (req : AttributeRequest)
    (now : Int) (pr : String × String)
    (hsig : verifySignatureMock V req.message req.signature req.referredWallet = true)
    (hval : validateNonceAndTimestampMock st.usedNonces req.nonce now req.timestamp = none)
    (hfa : st.affiliateIdStore.find? (fun q => q.1 == req.affiliateId) = some pr)
    (hself : pr.2 = req.referredWallet) :
    (attributeReferral V st req now).2
        = ⟨false, "Self-referrals are not allowed", true, false⟩
    ∧ (attributeReferral V st req now).1.referralMappingStore
        = st.referralMappingStore := by
  have hbeq : (req.referredWallet == pr.2) = true := by
    rw [hself]
    exact beq_self_eq_true _
  unfold attributeReferral
  dsimp only
  rw [hsig, hval]
  simp only [Bool.true_eq_false, if_false]
  rw [hfa]
  dsimp only
  rw [hbeq]
  simp only [if_true]
  exact ⟨by trivial, by trivial⟩

/-- C8 witness: wallet `"W9"` holding affiliate `"aff_9"` tries to bind
itself as its own referee and is rejected with the self-referral error,
leaving the (empty) attribution store empty. -/
theorem self_referral_rejected_witness :
    (attributeReferral (fun _ _ _ => some true) ⟨[], [("aff_9", sampleWallet)], []⟩
        ⟨sampleWallet, "aff_9", "m", "QUJD", "n1", 50⟩ 50).2
        = ⟨false, "Self-referrals are not allowed", true, false⟩
    ∧ (attributeReferral (fun _ _ _ => some true) ⟨[], [("aff_9", sampleWallet)], []⟩
        ⟨sampleWallet, "aff_9", "m", "QUJD", "n1", 50⟩ 50).1.referralMappingStore
        = (⟨[], [("aff_9", sampleWallet)], []⟩ : MockState).referralMappingStore := by
  exact self_referral_rejected ⟨[], [("aff_9", sampleWallet)], []⟩ (fun _ _ _ => some true)
    ⟨sampleWallet, "aff_9", "m", "QUJD", "n1", 50⟩ 50 ("aff_9", sampleWallet)
    (by decide) (by decide) (by decide) (by decide)

end Referral
